import Mathlib

/-!
Verification development for the robosuite user-study teleoperation slice:
the device-to-action assembly, grasp-edge side effects, per-step contact
safety scan, trial lifecycle (success detection, feedback, logging, reset),
session resilience, and the PandaWrist manipulator profile.

All definitions are shallow embeddings of `robosuite/demos/user_study.py`
and `robosuite/models/robots/manipulators/panda_wrist_robot.py`; gripper
intents, action components and times are modelled as rationals.
-/

namespace UserStudy

/-! ## ActionAssembler (user_study.py lines 341-358) -/

/-- Embedding of the action-space fill logic: `rem_action_dim = env.action_dim
- action.size`; if positive, pad with zeros on the side opposite the
controlled arm (`right` → trailing zeros, `left` → leading zeros, any other
arm leaves the action unchanged after printing an error); if negative,
truncate to the environment action dimension; if zero, pass through. -/
def assembleAction (arm : String) (envActionDim : Nat) (raw : List ℚ) : List ℚ :=
  let remActionDim : Int := (envActionDim : Int) - (raw.length : Int)
  if 0 < remActionDim then
    let remAction : List ℚ := List.replicate remActionDim.toNat 0
    if arm = "right" then raw ++ remAction
    else if arm = "left" then remAction ++ raw
    else raw
  else if remActionDim < 0 then
    raw.take envActionDim
  else raw

/-- The unsupported-arm diagnostic is printed exactly when the environment
action space is strictly larger than the raw action and the arm selector is
neither `right` nor `left` (lines 350-355). -/
def unsupportedArmReported (arm : String) (envActionDim : Nat) (rawLen : Nat) : Bool :=
  decide (0 < (envActionDim : Int) - (rawLen : Int))
    && !(decide (arm = "right")) && !(decide (arm = "left"))

/-- Outcome of the action phase of one tick: whether the unsupported-arm error was
reported, whether `env.step` was invoked, and with which action vector. -/
structure StepResult where
  reportedUnsupportedArm : Bool
  stepped : Bool
  applied : List ℚ
deriving DecidableEq, Repr

/-- Embedding of lines 320-361 of the tick: a `none` raw action is the
device-reset signal and breaks the loop without stepping; otherwise the
assembled action is unconditionally passed to `env.step`. -/
def tickStep (arm : String) (envActionDim : Nat) (raw : Option (List ℚ)) :
    Option StepResult :=
  match raw with
  | none => none
  | some a =>
      some { reportedUnsupportedArm := unsupportedArmReported arm envActionDim a.length
             stepped := true
             applied := assembleAction arm envActionDim a }

/-! ## Grasp-edge side effects (user_study.py lines 328-338) -/

/-- The loop variables mutated by the grasp-edge logic: the active-arm
selector `args.arm`, the camera index `cam_id`, the last grasp sample
`last_grasp`, and the camera count `num_cam` read at trial start. -/
structure ControlVars where
  arm : String
  camId : Nat
  lastGrasp : ℚ
  numCam : Nat
deriving DecidableEq, Repr

/-- Embedding of the grasp-edge block: when `last_grasp < 0 < grasp`, flip the
arm if switch-on-grasp is enabled and advance the camera modulo `num_cam` if
camera-toggle-on-grasp is enabled; in every case record `last_grasp = grasp`. -/
def graspUpdate (switchOnGrasp toggleCameraOnGrasp : Bool) (s : ControlVars)
    (grasp : ℚ) : ControlVars :=
  let s1 :=
    if s.lastGrasp < 0 ∧ 0 < grasp then
      let arm1 := if switchOnGrasp then
          (if s.arm = "right" then "left" else "right") else s.arm
      let cam1 := if toggleCameraOnGrasp then (s.camId + 1) % s.numCam else s.camId
      { s with arm := arm1, camId := cam1 }
    else s
  { s1 with lastGrasp := grasp }

/-- Folds the grasp-edge update over a sequence of gripper-intent samples. -/
def runGrasps (switchOnGrasp toggleCameraOnGrasp : Bool) (s : ControlVars)
    (gs : List ℚ) : ControlVars :=
  gs.foldl (graspUpdate switchOnGrasp toggleCameraOnGrasp) s

/-! ## SafetyMonitor (user_study.py lines 363-370) -/

/-- The safety-relevant geometry names `links2check` (line 363). -/
def links2check : List String :=
  ["robot0_g0_col", "robot0_g1_col", "robot0_g2_col", "robot0_g3_col",
   "robot0_g4_col", "robot0_g5_col", "robot0_link7_collision",
   "robot0_link6_collision", "gripper0_hand_collision"]

/-- Embedding of `bool1 or bool2` (lines 366-368): a contact is flagged when
one geometry is in the safety set and the other is not. -/
def contactFlagged (safeSet : List String) (g1 g2 : String) : Bool :=
  (decide (g1 ∈ safeSet) && decide (g2 ∉ safeSet))
    || (decide (g2 ∈ safeSet) && decide (g1 ∉ safeSet))

/-- The per-step scan over the contact list, keeping exactly the flagged
contacts (the ones that receive a contact marker). -/
def scanContacts (safeSet : List String) (contacts : List (String × String)) :
    List (String × String) :=
  contacts.filter (fun c => contactFlagged safeSet c.1 c.2)

/-! ## TrialController (user_study.py lines 373-425) -/

/-- The trial lifecycle states of the spec. The code realises the whole
`TERMINAL_PENDING_FEEDBACK → RESET → RUNNING` sequence inside one tick of
the loop body, so `controllerTick` always lands back in `RUNNING`. -/
inductive CtrlState
  | RUNNING
  | TERMINAL_PENDING_FEEDBACK
  | RESET
deriving DecidableEq, Repr

/-- One row of the append-only CSV trial log (`save_data`, lines 125-129). -/
structure TrialRecord where
  subject : String
  task : String
  robot : String
  trial : Nat
  success : Nat
  successTime : ℚ
  disturbance : String
deriving DecidableEq, Repr

/-- The tuple returned by the task-specific `env._check_success()`; the
`disturbance` component is only produced (and only recorded) by the
Bookshelf task. -/
structure SuccessReport where
  trialEnded : Bool
  success : Nat
  successTime : ℚ
  disturbance : String
  trial : Nat
deriving DecidableEq, Repr

/-- The tasks whose branch of the loop body evaluates a success predicate
(lines 373, 388, 398). -/
def successTasks : List String := ["ConstrainedReorient", "Bookshelf", "DrawerPick"]

/-- The disturbance column actually written by `save_data`: the reported
disturbance for Bookshelf (line 393), the empty-string default otherwise. -/
def recordedDisturbance (task : String) (r : SuccessReport) : String :=
  if task = "Bookshelf" then r.disturbance else ""

/-- Observable effects of the per-tick task dispatch (lines 373-412):
records appended by `save_data`, the `time.sleep` dwell, whether
`device._reset_internal_state()` ran, whether this tick ended the trial,
whether `env._check_success()` was evaluated, and whether a feedback
marker was drawn. -/
structure FeedbackEffects where
  records : List TrialRecord
  dwell : Nat
  deviceStateReset : Bool
  terminal : Bool
  successChecked : Bool
  markerEmitted : Bool
deriving DecidableEq, Repr

/-- Embedding of the task dispatch in the loop body. For the three study
tasks: on `trial_ended`, draw the success affordance (ConstrainedReorient
only for ordinal level 2, Bookshelf/DrawerPick for truthy success), persist
one record, dwell 3 seconds and reset the device state; otherwise
ConstrainedReorient still draws a progress arrow. The Train branch only
draws the goal-pose marker. -/
def feedbackPhase (subject task robot : String) (r : SuccessReport) : FeedbackEffects :=
  if task = "ConstrainedReorient" then
    if r.trialEnded then
      { records := [{ subject := subject, task := task, robot := robot, trial := r.trial,
                      success := r.success, successTime := r.successTime, disturbance := "" }]
        dwell := 3, deviceStateReset := true, terminal := true, successChecked := true
        markerEmitted := decide (r.success = 2) }
    else
      { records := [], dwell := 0, deviceStateReset := false, terminal := false
        successChecked := true, markerEmitted := true }
  else if task = "Bookshelf" then
    if r.trialEnded then
      { records := [{ subject := subject, task := task, robot := robot, trial := r.trial,
                      success := r.success, successTime := r.successTime,
                      disturbance := r.disturbance }]
        dwell := 3, deviceStateReset := true, terminal := true, successChecked := true
        markerEmitted := decide (r.success ≠ 0) }
    else
      { records := [], dwell := 0, deviceStateReset := false, terminal := false
        successChecked := true, markerEmitted := false }
  else if task = "DrawerPick" then
    if r.trialEnded then
      { records := [{ subject := subject, task := task, robot := robot, trial := r.trial,
                      success := r.success, successTime := r.successTime, disturbance := "" }]
        dwell := 3, deviceStateReset := true, terminal := true, successChecked := true
        markerEmitted := decide (r.success ≠ 0) }
    else
      { records := [], dwell := 0, deviceStateReset := false, terminal := false
        successChecked := true, markerEmitted := false }
  else if task = "Train" then
    { records := [], dwell := 0, deviceStateReset := false, terminal := false
      successChecked := false, markerEmitted := true }
  else
    { records := [], dwell := 0, deviceStateReset := false, terminal := false
      successChecked := false, markerEmitted := false }

/-- Abstract simulation-trial context; `trialIdx` is the trial counter the
task environments report through `_check_success`. -/
structure SimEnv where
  trialIdx : Nat
deriving DecidableEq, Repr

/-- Modelled from the spec: the study task environments
(`ConstrainedReorient`, `Bookshelf`, `DrawerPick`) and their internal
trial management are not part of the shown source; per the spec, after the
dwell interval the simulation is re-initialized for a new trial
(`TERMINAL_PENDING_FEEDBACK → RESET → RUNNING`). -/
def envReinit (e : SimEnv) : SimEnv := { trialIdx := e.trialIdx + 1 }

/-- Full trial-controller state threaded through the loop: spec lifecycle
state, the persisted log, the device-internal drift tracking (cleared by
`device._reset_internal_state()`), and the simulation context. -/
structure TrialCtl where
  ctrl : CtrlState
  log : List TrialRecord
  deviceDrift : ℚ
  env : SimEnv
deriving DecidableEq, Repr

/-- One tick of the trial-controller portion of the loop body: applies the
effects of the task dispatch to the controller state and reports the dwell
emitted by that tick. -/
def controllerTick (subject task robot : String) (st : TrialCtl) (r : SuccessReport) :
    TrialCtl × Nat :=
  let eff := feedbackPhase subject task robot r
  ({ ctrl := CtrlState.RUNNING
     log := st.log ++ eff.records
     deviceDrift := if eff.deviceStateReset then 0 else st.deviceDrift
     env := if eff.terminal then envReinit st.env else st.env }, eff.dwell)

/-- Controller state at the start of a (task, robot) pair: empty log for the
pair, fresh device tracking, first trial. -/
def initialTrialCtl : TrialCtl :=
  { ctrl := CtrlState.RUNNING, log := [], deviceDrift := 0, env := { trialIdx := 0 } }

/-! ## SessionRunner (user_study.py lines 218-428) -/

/-- External input of one tick: a device sample (raw action, gripper intent,
success report; a `none` raw action is the reset signal of the device, which
breaks to the outer loop and `env.reset()`), or an unhandled exception
raised during the tick. -/
inductive TickInput
  | sample (raw : Option (List ℚ)) (grasp : ℚ) (report : SuccessReport)
  | fault
deriving DecidableEq, Repr

/-- Runs the `try`-guarded trial loop of one (task, robot) pair over a finite
input stream: a fault stops the pair immediately (the `except` branch closes
the environment, reported as the `true` flag); a reset sample starts a new
trial; an ordinary sample runs one controller tick. -/
def runPairTicks (subject task robot : String) :
    List TickInput → TrialCtl → TrialCtl × Bool
  | [], st => (st, false)
  | TickInput.fault :: _, st => (st, true)
  | TickInput.sample none _ _ :: rest, st => runPairTicks subject task robot rest st
  | TickInput.sample (some _) _ r :: rest, st =>
      runPairTicks subject task robot rest (controllerTick subject task robot st r).1

/-- One (task, robot) pair of the session with its input stream. -/
structure SessionPair where
  task : String
  robot : String
  ticks : List TickInput
deriving DecidableEq, Repr

/-- Runs one pair from a fresh trial-controller state, returning the records
it persisted and whether its environment was torn down by a fault. -/
def runPair (subject : String) (p : SessionPair) : List TrialRecord × Bool :=
  let res := runPairTicks subject p.task p.robot p.ticks initialTrialCtl
  (res.1.log, res.2)

/-- The session loop over the (task, robot) pairs: the `except ... continue`
at lines 426-428 means every pair is processed regardless of faults in
earlier pairs. -/
def runSession (subject : String) (pairs : List SessionPair) :
    List (List TrialRecord × Bool) :=
  pairs.map (runPair subject)

/-- A tick input that does not end the current trial: a sample whose success
report has `trial_ended = false`. -/
def nonTerminalTick : TickInput → Bool
  | TickInput.sample _ _ r => !r.trialEnded
  | TickInput.fault => false

/-! ## Session events touching the loop variables (lines 300-338) -/

/-- Session-level events as they touch the loop variables: a new
(task, robot) pair (lines 227-298: builds env and device, leaves `args.arm`
alone), a trial start (lines 300-313: `env.reset()`, `cam_id = 0`,
`num_cam` re-read, `last_grasp = 0`), or a grasp sample processed by the
edge-trigger block. -/
inductive SessionEvent
  | pairStart
  | trialStart (numCam : Nat)
  | graspTick (grasp : ℚ)
deriving DecidableEq, Repr

/-- Effect of one session event on the loop variables. -/
def sessionEventStep (switchOnGrasp toggleCameraOnGrasp : Bool) (v : ControlVars) :
    SessionEvent → ControlVars
  | SessionEvent.pairStart => v
  | SessionEvent.trialStart n => { v with camId := 0, lastGrasp := 0, numCam := n }
  | SessionEvent.graspTick g => graspUpdate switchOnGrasp toggleCameraOnGrasp v g

/-- Folds the session events over the loop variables. -/
def runEvents (switchOnGrasp toggleCameraOnGrasp : Bool) (v : ControlVars)
    (evts : List SessionEvent) : ControlVars :=
  evts.foldl (sessionEventStep switchOnGrasp toggleCameraOnGrasp) v

/-- Recognises the re-initialization events (trial and pair boundaries). -/
def isInitEvent : SessionEvent → Bool
  | SessionEvent.graspTick _ => false
  | _ => true

/-! ## ManipulatorProfile (panda_wrist_robot.py) -/

/-- A base-placement offset: either a constant 3-vector or a function of the
table length (`base_xpos_offset`, lines 47-53). -/
inductive BaseOffset
  | const (x y z : ℚ)
  | tableFn (f : ℚ → ℚ × ℚ × ℚ)

/-- Static configuration of one manipulator variant. Joint angles are kept
symbolic as pairs `(a, b)` denoting `a + b·π`, so the `init_qpos` entries of
the source are represented exactly. -/
structure ManipulatorProfile where
  jointCount : Nat
  damping : List ℚ
  initQpos : List (ℚ × ℚ)
  defaultMount : String
  defaultGripper : String
  defaultController : String
  baseOffsets : String → Option BaseOffset
  topOffset : ℚ × ℚ × ℚ
  horizontalRadius : ℚ
  armType : String

/-- Modelled from the spec: profile construction validates that the joint
damping vector and the initial joint-pose vector both match the
joint count of the robot, failing fast at construction (the validating
`ManipulatorModel.set_joint_attribute` and the robot XML declaring the
joints are not under the shown source). -/
def mkManipulatorProfile (p : ManipulatorProfile) : Option ManipulatorProfile :=
  if p.damping.length = p.jointCount ∧ p.initQpos.length = p.jointCount then some p
  else none

/-- The PandaWrist variant (panda_wrist_robot.py): damping
`(0.1×5, 0.01×4)`, the "SSLIM OG" `init_qpos`
`[0, -π/2.5, 0, -π/2.5 - π/2.2, 0, π - 0.4, π/4, π/2.5, 0]`, RethinkMount,
SSLIMHand, `default_panda` controller, the three base offsets, top offset
`(0, 0, 1)`, horizontal radius `0.5`, single-arm. The joint count 9 is
modelled from the spec (the robot XML is not under the shown source). -/
def pandaWrist : ManipulatorProfile :=
  { jointCount := 9
    damping := [1/10, 1/10, 1/10, 1/10, 1/10, 1/100, 1/100, 1/100, 1/100]
    initQpos := [(0, 0), (0, -2/5), (0, 0), (0, -2/5 - 5/11), (0, 0),
                 (-2/5, 1), (0, 1/4), (0, 2/5), (0, 0)]
    defaultMount := "RethinkMount"
    defaultGripper := "SSLIMHand"
    defaultController := "default_panda"
    baseOffsets := fun k =>
      if k = "bins" then some (BaseOffset.const (-1/2) (-1/10) 0)
      else if k = "empty" then some (BaseOffset.const (-3/5) 0 0)
      else if k = "table" then
        some (BaseOffset.tableFn (fun tableLength => (-4/25 - tableLength/2, 0, 0)))
      else none
    topOffset := (0, 0, 1)
    horizontalRadius := 1/2
    armType := "single" }

end UserStudy

namespace UserStudy

/-! ## Helper lemmas -/

/-- A success report with `trial_ended = false` appends no record, whatever
the task. -/
lemma feedback_records_nil (subject task robot : String) (r : SuccessReport)
    (h : r.trialEnded = false) : (feedbackPhase subject task robot r).records = [] := by
  unfold feedbackPhase
  split_ifs <;> simp_all

/-- A success report with `trial_ended = false` leaves the persisted log
unchanged. -/
lemma controllerTick_log_nonterminal (subject task robot : String) (st : TrialCtl)
    (r : SuccessReport) (h : r.trialEnded = false) :
    (controllerTick subject task robot st r).1.log = st.log := by
  simp [controllerTick, feedback_records_nil subject task robot r h]

/-- Running the pair loop up to a fault, through only non-terminal samples,
persists nothing and ends with the torn-down flag set. -/
lemma runPairTicks_fault_log (subject task robot : String) (post : List TickInput)
    (pre : List TickInput) :
    ∀ st : TrialCtl, (∀ i ∈ pre, nonTerminalTick i = true) →
      (runPairTicks subject task robot (pre ++ TickInput.fault :: post) st).1.log = st.log ∧
      (runPairTicks subject task robot (pre ++ TickInput.fault :: post) st).2 = true := by
  induction pre with
  | nil => intro st _; simp [runPairTicks]
  | cons i pre ih =>
      intro st h
      have hi := h i (List.mem_cons_self _ _)
      have hrest : ∀ j ∈ pre, nonTerminalTick j = true :=
        fun j hj => h j (List.mem_cons_of_mem _ hj)
      cases i with
      | fault => simp [nonTerminalTick] at hi
      | sample raw g r =>
          cases raw with
          | none => simpa [runPairTicks] using ih st hrest
          | some a =>
              have hr : r.trialEnded = false := by
                simpa [nonTerminalTick] using hi
              have ihr := ih (controllerTick subject task robot st r).1 hrest
              refine ⟨?_, ?_⟩
              · calc (runPairTicks subject task robot
                        ((TickInput.sample (some a) g r :: pre) ++ TickInput.fault :: post)
                        st).1.log
                    = (runPairTicks subject task robot (pre ++ TickInput.fault :: post)
                        (controllerTick subject task robot st r).1).1.log := by
                        simp [runPairTicks]
                  _ = (controllerTick subject task robot st r).1.log := ihr.1
                  _ = st.log := controllerTick_log_nonterminal subject task robot st r hr
              · simpa [runPairTicks] using ihr.2

/-! ## Claim theorems -/

/-- C1: for every trial whose success predicate reports trial_ended, exactly
one TrialRecord is appended to the log, the final frame is held for the
3-time-unit dwell, the device-internal tracking state is cleared, the
simulation is re-initialized for a new trial, and the controller is back in
RUNNING. -/
theorem C1_terminal_trial (subject task robot : String) (st : TrialCtl)
    (r : SuccessReport) (htask : task ∈ successTasks)
    (hrun : st.ctrl = CtrlState.RUNNING) (hend : r.trialEnded = true) :
    (controllerTick subject task robot st r).1.log =
      st.log ++ [{ subject := subject, task := task, robot := robot, trial := r.trial,
                   success := r.success, successTime := r.successTime,
                   disturbance := recordedDisturbance task r }] ∧
    (controllerTick subject task robot st r).2 = 3 ∧
    (controllerTick subject task robot st r).1.deviceDrift = 0 ∧
    (controllerTick subject task robot st r).1.env = envReinit st.env ∧
    (controllerTick subject task robot st r).1.ctrl = CtrlState.RUNNING := by
  simp only [successTasks, List.mem_cons, List.not_mem_nil, or_false] at htask
  rcases htask with h | h | h <;> subst h <;>
    simp [controllerTick, feedbackPhase, recordedDisturbance, hend]

/-- Concrete terminal report used to witness the trial-lifecycle theorem. -/
def wReport : SuccessReport :=
  { trialEnded := true, success := 1, successTime := 12, disturbance := "", trial := 0 }

/-- Witness for C1 at the DrawerPick task and a concrete terminal report. -/
theorem C1_terminal_trial_witness :
    ("DrawerPick" ∈ successTasks ∧ initialTrialCtl.ctrl = CtrlState.RUNNING ∧
      wReport.trialEnded = true) ∧
    ((controllerTick "subj" "DrawerPick" "Panda" initialTrialCtl wReport).1.log =
      initialTrialCtl.log ++
        [{ subject := "subj", task := "DrawerPick", robot := "Panda", trial := wReport.trial,
           success := wReport.success, successTime := wReport.successTime,
           disturbance := recordedDisturbance "DrawerPick" wReport }] ∧
     (controllerTick "subj" "DrawerPick" "Panda" initialTrialCtl wReport).2 = 3 ∧
     (controllerTick "subj" "DrawerPick" "Panda" initialTrialCtl wReport).1.deviceDrift = 0 ∧
     (controllerTick "subj" "DrawerPick" "Panda" initialTrialCtl wReport).1.env =
       envReinit initialTrialCtl.env ∧
     (controllerTick "subj" "DrawerPick" "Panda" initialTrialCtl wReport).1.ctrl =
       CtrlState.RUNNING) :=
  ⟨⟨by decide, rfl, rfl⟩,
   C1_terminal_trial "subj" "DrawerPick" "Panda" initialTrialCtl wReport
     (by decide) rfl rfl⟩

/-- C2 (amended): the assembled action has length exactly env_action_dim
whenever the active arm is right or left, or the raw action already covers
the environment action space; for any other arm value with a positive
remainder the raw action is passed through at its own length. -/
theorem C2_assembled_length (raw : List ℚ) (dim : Nat) (arm : String)
    (h : arm = "right" ∨ arm = "left" ∨ dim ≤ raw.length) :
    (assembleAction arm dim raw).length = dim := by
  by_cases h1 : 0 < (dim : Int) - (raw.length : Int)
  · have h2 : ((dim : Int) - (raw.length : Int)).toNat = dim - raw.length := by omega
    rcases h with h | h | h
    · subst h; simp [assembleAction, h1, h2]; omega
    · subst h; simp [assembleAction, h1, h2]; omega
    · omega
  · by_cases h3 : (dim : Int) - (raw.length : Int) < 0
    · have h4 : dim ≤ raw.length := by omega
      simp [assembleAction, h1, h3]; omega
    · have h4 : raw.length = dim := by omega
      simp [assembleAction, h1, h3, h4]

/-- Counterexample for C2 as stated: in a 14-dimensional environment with a
7-dimensional raw action and the arm selector `bimanual`, the action passed
to the step keeps length 7, not 14. -/
theorem C2_counterexample :
    (assembleAction "bimanual" 14 [1, 2, 3, 4, 5, 6, 7]).length = 7 ∧
    ¬ (assembleAction "bimanual" 14 [1, 2, 3, 4, 5, 6, 7]).length = 14 := by decide

/-- Witness for the amended C2 at a concrete right-arm padding input. -/
theorem C2_assembled_length_witness :
    ("right" = "right" ∨ "right" = "left" ∨ 14 ≤ ([1, 2, 3, 4, 5, 6, 7] : List ℚ).length) ∧
    (assembleAction "right" 14 [1, 2, 3, 4, 5, 6, 7]).length = 14 :=
  ⟨Or.inl rfl, C2_assembled_length [1, 2, 3, 4, 5, 6, 7] 14 "right" (Or.inl rfl)⟩

/-- C3 (amended): in a multi-arm environment with an arm selector other than
right or left, the unsupported-arm error is reported but the step is NOT
skipped: the raw, un-padded action is applied to the simulation unchanged. -/
theorem C3_unsupported_arm_still_steps (arm : String) (dim : Nat) (a : List ℚ)
    (h1 : a.length < dim) (h2 : arm ≠ "right") (h3 : arm ≠ "left") :
    tickStep arm dim (some a) =
      some { reportedUnsupportedArm := true, stepped := true, applied := a } := by
  have h4 : 0 < (dim : Int) - (a.length : Int) := by omega
  simp [tickStep, unsupportedArmReported, assembleAction, h2, h3, h4]

/-- Counterexample for C3 as stated: with arm `bimanual`, raw action of
length 7 and env_action_dim 14, the error is reported yet the tick still
steps the simulation with the malformed (length-7) vector. -/
theorem C3_counterexample :
    tickStep "bimanual" 14 (some [0, 0, 0, 0, 0, 0, 1]) =
      some { reportedUnsupportedArm := true, stepped := true,
             applied := [0, 0, 0, 0, 0, 0, 1] } ∧
    ¬ (assembleAction "bimanual" 14 [0, 0, 0, 0, 0, 0, 1]).length = 14 := by decide

/-- Witness for the amended C3 at a concrete unsupported-arm input. -/
theorem C3_unsupported_arm_still_steps_witness :
    (([2, 2, 2, 2, 2, 2, 2] : List ℚ).length < 14 ∧
      "bimanual" ≠ "right" ∧ "bimanual" ≠ "left") ∧
    tickStep "bimanual" 14 (some [2, 2, 2, 2, 2, 2, 2]) =
      some { reportedUnsupportedArm := true, stepped := true,
             applied := [2, 2, 2, 2, 2, 2, 2] } :=
  ⟨⟨by decide, by decide, by decide⟩,
   C3_unsupported_arm_still_steps "bimanual" 14 [2, 2, 2, 2, 2, 2, 2]
     (by decide) (by decide) (by decide)⟩

/-- C4 (amended): the arm-switch and camera-toggle side effects fire exactly
when the gripper intent goes from strictly negative on the previous tick to
strictly positive on the current tick; both may fire on the same edge, and
the last-grasp tracker always takes the current sample. On the intent
sequence [-1, -1, 0.5] with switch-on-grasp enabled the arm flips exactly
once, on the last transition. -/
theorem C4_grasp_edge_trigger (sw tc : Bool) (s : ControlVars) (g : ℚ) :
    (graspUpdate sw tc s g).lastGrasp = g ∧
    (graspUpdate sw tc s g).arm =
      (if sw = true ∧ s.lastGrasp < 0 ∧ 0 < g then
        (if s.arm = "right" then "left" else "right")
       else s.arm) ∧
    (graspUpdate sw tc s g).camId =
      (if tc = true ∧ s.lastGrasp < 0 ∧ 0 < g then (s.camId + 1) % s.numCam
       else s.camId) ∧
    (runGrasps true false { arm := "right", camId := 0, lastGrasp := 0, numCam := 1 }
        [-1]).arm = "right" ∧
    (runGrasps true false { arm := "right", camId := 0, lastGrasp := 0, numCam := 1 }
        [-1, -1]).arm = "right" ∧
    (runGrasps true false { arm := "right", camId := 0, lastGrasp := 0, numCam := 1 }
        [-1, -1, mkRat 1 2]).arm = "left" := by
  refine ⟨?_, ?_, ?_, by decide, by decide, by decide⟩ <;>
    by_cases he : s.lastGrasp < 0 ∧ 0 < g <;> cases sw <;> cases tc <;>
      simp [graspUpdate, he]

/-- Counterexample for C4 as stated: a previous intent of 0 is non-positive,
so the claim requires the edge to fire on the next positive sample; the code
requires a strictly negative previous intent, so neither the arm nor the
camera changes. -/
theorem C4_counterexample :
    (graspUpdate true true { arm := "right", camId := 0, lastGrasp := 0, numCam := 4 }
        (mkRat 1 2)).arm = "right" ∧
    ¬ (graspUpdate true true { arm := "right", camId := 0, lastGrasp := 0, numCam := 4 }
        (mkRat 1 2)).arm = "left" ∧
    (graspUpdate true true { arm := "right", camId := 0, lastGrasp := 0, numCam := 4 }
        (mkRat 1 2)).camId = 0 := by decide

/-- C5: a contact is kept by the safety scan exactly when one geometry of
the pair is in the safety-relevant set and the other is not. -/
theorem C5_safety_scan_xor (l : List (String × String)) (c : String × String) :
    c ∈ scanContacts links2check l ↔
      c ∈ l ∧ Xor' (c.1 ∈ links2check) (c.2 ∈ links2check) := by
  simp only [scanContacts, List.mem_filter, contactFlagged, Xor', Bool.or_eq_true,
    Bool.and_eq_true, decide_eq_true_eq]

/-- C6: an unhandled exception during a trial tears down the simulation
context of that pair, writes zero TrialRecords for the aborted trial, and the
session continues to the remaining (task, robot) pairs without terminating. -/
theorem C6_session_resilience (subject task robot : String) (pre post : List TickInput)
    (rest : List SessionPair) (hpre : ∀ i ∈ pre, nonTerminalTick i = true) :
    runPair subject { task := task, robot := robot, ticks := pre ++ TickInput.fault :: post }
      = ([], true) ∧
    runSession subject
        ({ task := task, robot := robot, ticks := pre ++ TickInput.fault :: post } :: rest)
      = ([], true) :: runSession subject rest ∧
    (runSession subject
        ({ task := task, robot := robot, ticks := pre ++ TickInput.fault :: post } :: rest)).length
      = rest.length + 1 := by
  have h := runPairTicks_fault_log subject task robot post pre initialTrialCtl hpre
  have h1 : runPair subject
      { task := task, robot := robot, ticks := pre ++ TickInput.fault :: post } = ([], true) := by
    simp only [runPair]
    exact Prod.ext (by simpa [initialTrialCtl] using h.1) (by simpa using h.2)
  refine ⟨h1, ?_, ?_⟩
  · simp [runSession, h1]
  · simp [runSession]

/-- Non-terminal report used by witnesses of the session theorems. -/
def wQuietReport : SuccessReport :=
  { trialEnded := false, success := 0, successTime := 0, disturbance := "", trial := 0 }

/-- The quiet tick preceding the fault in the C6 witness. -/
def wQuietTicks : List TickInput := [TickInput.sample (some [1]) 1 wQuietReport]

/-- The faulting pair of the C6 witness. -/
def wFaultPair : SessionPair :=
  { task := "Bookshelf", robot := "Panda", ticks := wQuietTicks ++ TickInput.fault :: [] }

/-- The pair following the fault in the C6 witness. -/
def wNextPair : SessionPair := { task := "DrawerPick", robot := "PandaWrist", ticks := [] }

/-- Witness for C6: one non-terminal tick, then a fault, with one further
pair in the session. -/
theorem C6_session_resilience_witness :
    (∀ i ∈ wQuietTicks, nonTerminalTick i = true) ∧
    (runPair "subj" wFaultPair = ([], true) ∧
     runSession "subj" (wFaultPair :: [wNextPair])
       = ([], true) :: runSession "subj" [wNextPair] ∧
     (runSession "subj" (wFaultPair :: [wNextPair])).length = [wNextPair].length + 1) :=
  ⟨by decide,
   C6_session_resilience "subj" "Bookshelf" "Panda" wQuietTicks [] [wNextPair] (by decide)⟩

/-- C7: with a positive remainder the raw action is padded with zeros after
it for the right arm and before it for the left arm; with a negative
remainder it is truncated to the first env_action_dim elements; with a zero
remainder it passes through unchanged. -/
theorem C7_pad_truncate_passthrough (raw : List ℚ) (dim : Nat) (arm : String) :
    (raw.length < dim →
       assembleAction "right" dim raw = raw ++ List.replicate (dim - raw.length) 0 ∧
       assembleAction "left" dim raw = List.replicate (dim - raw.length) 0 ++ raw) ∧
    (dim < raw.length → assembleAction arm dim raw = raw.take dim) ∧
    (dim = raw.length → assembleAction arm dim raw = raw) := by
  refine ⟨fun h => ?_, fun h => ?_, fun h => ?_⟩
  · have h1 : 0 < (dim : Int) - (raw.length : Int) := by omega
    have h2 : ((dim : Int) - (raw.length : Int)).toNat = dim - raw.length := by omega
    constructor <;> simp [assembleAction, h1, h2]
  · have h1 : ¬ 0 < (dim : Int) - (raw.length : Int) := by omega
    have h2 : (dim : Int) - (raw.length : Int) < 0 := by omega
    simp [assembleAction, h1, h2]
  · have h1 : ¬ 0 < (dim : Int) - (raw.length : Int) := by omega
    have h2 : ¬ (dim : Int) - (raw.length : Int) < 0 := by omega
    simp [assembleAction, h1, h2]

/-- Witness for C7: the padding example raw_action [1, 2] with
env_action_dim 5 for both arms, and the truncation example [1, 2, 3] with
env_action_dim 2. -/
theorem C7_pad_truncate_passthrough_witness :
    (([1, 2] : List ℚ).length < 5 ∧
      assembleAction "right" 5 [1, 2] = [1, 2, 0, 0, 0] ∧
      assembleAction "left" 5 [1, 2] = [0, 0, 0, 1, 2]) ∧
    (2 < ([1, 2, 3] : List ℚ).length ∧
      assembleAction "bimanual" 2 [1, 2, 3] = [1, 2]) :=
  ⟨⟨by decide, (C7_pad_truncate_passthrough [1, 2] 5 "bimanual").1 (by decide)⟩,
   ⟨by decide, (C7_pad_truncate_passthrough [1, 2, 3] 2 "bimanual").2.1 (by decide)⟩⟩

/-- C8: the PandaWrist profile has damping and initial-pose vectors of equal
length 9, matching its joint count, the validated constructor accepts it,
and the constructor succeeds exactly when both vectors match the joint
count, so mismatched configurations fail at construction. -/
theorem C8_profile_lengths :
    mkManipulatorProfile pandaWrist = some pandaWrist ∧
    pandaWrist.damping.length = 9 ∧
    pandaWrist.initQpos.length = 9 ∧
    pandaWrist.jointCount = 9 ∧
    ∀ p : ManipulatorProfile,
      (mkManipulatorProfile p).isSome =
        (decide (p.damping.length = p.jointCount) &&
          decide (p.initQpos.length = p.jointCount)) := by
  refine ⟨rfl, rfl, rfl, rfl, fun p => ?_⟩
  by_cases h1 : p.damping.length = p.jointCount <;>
    by_cases h2 : p.initQpos.length = p.jointCount <;>
      simp [mkManipulatorProfile, h1, h2]

/-- C9: a Train-task tick never evaluates a success predicate, never
persists a record, always draws the goal-pose marker, and leaves the
controller, device and simulation state untouched, so a training trial can
only end through the device reset signal or external termination. -/
theorem C9_train_no_records (subject robot : String) (st : TrialCtl) (r : SuccessReport) :
    (feedbackPhase subject "Train" robot r).successChecked = false ∧
    (feedbackPhase subject "Train" robot r).records = [] ∧
    (feedbackPhase subject "Train" robot r).markerEmitted = true ∧
    (feedbackPhase subject "Train" robot r).terminal = false ∧
    (feedbackPhase subject "Train" robot r).deviceStateReset = false ∧
    (feedbackPhase subject "Train" robot r).dwell = 0 ∧
    (controllerTick subject "Train" robot st r).1.log = st.log ∧
    (controllerTick subject "Train" robot st r).1.env = st.env ∧
    (controllerTick subject "Train" robot st r).1.deviceDrift = st.deviceDrift := by
  simp [feedbackPhase, controllerTick]

/-- C10: trial starts and pair starts never touch the active-arm selector,
so a flipped arm persists across all subsequent trials and pairs, while the
camera index and the last-grasp tracker are re-initialized to 0 at every
trial start. -/
theorem C10_arm_persists_vars_reset (sw tc : Bool) (v : ControlVars) (n : Nat)
    (evts : List SessionEvent) (h : ∀ e ∈ evts, isInitEvent e = true) :
    (runEvents sw tc v evts).arm = v.arm ∧
    (runEvents sw tc v (evts ++ [SessionEvent.trialStart n])).camId = 0 ∧
    (runEvents sw tc v (evts ++ [SessionEvent.trialStart n])).lastGrasp = 0 := by
  have harm : ∀ (l : List SessionEvent) (w : ControlVars),
      (∀ e ∈ l, isInitEvent e = true) → (runEvents sw tc w l).arm = w.arm := by
    intro l
    induction l with
    | nil => intro w _; rfl
    | cons e l ih =>
        intro w hw
        have he := hw e (List.mem_cons_self _ _)
        have hl : ∀ x ∈ l, isInitEvent x = true :=
          fun x hx => hw x (List.mem_cons_of_mem _ hx)
        cases e with
        | pairStart => simpa [runEvents, sessionEventStep] using ih w hl
        | trialStart m =>
            simpa [runEvents, sessionEventStep] using
              ih { w with camId := 0, lastGrasp := 0, numCam := m } hl
        | graspTick g => simp [isInitEvent] at he
  refine ⟨harm evts v h, ?_, ?_⟩ <;>
    simp [runEvents, List.foldl_append, sessionEventStep]

/-- Witness for C10: a pair boundary followed by a trial boundary preserves a
flipped arm and zeroes the camera index and last-grasp tracker. -/
theorem C10_arm_persists_vars_reset_witness :
    (∀ e ∈ [SessionEvent.pairStart, SessionEvent.trialStart 3], isInitEvent e = true) ∧
    ((runEvents true true { arm := "left", camId := 2, lastGrasp := -1, numCam := 5 }
        [SessionEvent.pairStart, SessionEvent.trialStart 3]).arm = "left" ∧
     (runEvents true true { arm := "left", camId := 2, lastGrasp := -1, numCam := 5 }
        ([SessionEvent.pairStart, SessionEvent.trialStart 3] ++
          [SessionEvent.trialStart 2])).camId = 0 ∧
     (runEvents true true { arm := "left", camId := 2, lastGrasp := -1, numCam := 5 }
        ([SessionEvent.pairStart, SessionEvent.trialStart 3] ++
          [SessionEvent.trialStart 2])).lastGrasp = 0) :=
  ⟨by decide,
   C10_arm_persists_vars_reset true true
     { arm := "left", camId := 2, lastGrasp := -1, numCam := 5 } 2
     [SessionEvent.pairStart, SessionEvent.trialStart 3] (by decide)⟩

end UserStudy
